import Mathlib

/-!
Shallow embedding of the logger-pool subsystem of the telegramFileServer
repository (src/logger.py and the logger endpoints of src/api.py).

Modelling conventions:
- `datetime` values are seconds as `Nat`, passed explicitly as a `now`
  argument wherever the source calls `datetime.now()`.
- logger identities (`uuid.uuid4()` strings) are `Nat`; a freshly drawn
  uuid is passed as an explicit argument, with freshness as a hypothesis
  where a claim needs it.
- The source keeps `_logger_pool : id -> ServiceLogger` and
  `_pool_metadata : id -> PooledLogger` with identical key sets (both maps
  are inserted into and deleted from together, under one lock), and each
  `ServiceLogger` aliases the `config` object held by its `PooledLogger`.
  The state therefore carries a single association list `pool` from
  identity to `PooledLogger`; instance methods re-resolve their entry by
  identity, which is observationally the same as the Python reference
  aliasing.
- `Queue(maxsize=10000)` is a `List LogEntry` plus the capacity constant;
  `Queue.put` blocks when the queue is full, which the embedding renders
  as `none` (the call never completes, no state change is observed).
-/

/-- Per-service logger configuration (class `LoggerConfig`). The dataclass
field defaults are `debug=False, warning=True, info=True, error=True,
critical=True`. -/
structure LoggerConfig where
  service_name : String
  debug_enabled : Bool := false
  warning_enabled : Bool := true
  info_enabled : Bool := true
  error_enabled : Bool := true
  critical_enabled : Bool := true
deriving Repr, DecidableEq

/-- `LoggerConfig.is_level_enabled`: dictionary lookup over the five level
names, defaulting to `False` for an unknown level. -/
def LoggerConfig.is_level_enabled (c : LoggerConfig) (level : String) : Bool :=
  if level = "debug" then c.debug_enabled
  else if level = "info" then c.info_enabled
  else if level = "warning" then c.warning_enabled
  else if level = "error" then c.error_enabled
  else if level = "critical" then c.critical_enabled
  else false

/-- Pool entry with usage metadata (class `PooledLogger`). -/
structure PooledLogger where
  logger_id : Nat
  config : LoggerConfig
  created_at : Nat
  last_used : Nat
  message_count : Nat
deriving Repr, DecidableEq

/-- A queued log record (class `LogEntry`); `metadata` is an opaque
key-value list, `timestamp` is the capture time filled by
`__post_init__` from `datetime.now()` at construction. -/
structure LogEntry where
  level : String
  message : String
  service : Option String
  metadata : Option (List (String × String))
  timestamp : Nat
  traceback : Option String
deriving Repr, DecidableEq

/-- `TelegramLogger.__init__` sets `self.log_queue = Queue(maxsize=10000)`. -/
def LOG_QUEUE_MAXSIZE : Nat := 10000

/-- The mutable state of a `TelegramLogger`: TTL settings, the pool pair
(collapsed to one association list, see header), the service-name alias
map, the bounded dispatch queue, and the sent/failed counters. -/
structure TelegramLogger where
  ttl_seconds : Nat
  enable_ttl_cleanup : Bool
  pool : List (Nat × PooledLogger)
  service_to_logger_id : List (String × Nat)
  log_queue : List LogEntry
  stats_sent : Nat
  stats_failed : Nat
deriving Repr, DecidableEq

/-- Dictionary lookup `pool.get(logger_id)` over the association list. -/
def poolLookup (pool : List (Nat × PooledLogger)) (logger_id : Nat) :
    Option PooledLogger :=
  (pool.find? (fun p => p.1 == logger_id)).map Prod.snd

/-- In-place mutation of the entry stored under `logger_id`
(`pool[logger_id].field = ...` in the source). -/
def poolUpdate (pool : List (Nat × PooledLogger)) (logger_id : Nat)
    (f : PooledLogger → PooledLogger) : List (Nat × PooledLogger) :=
  pool.map (fun p => if p.1 == logger_id then (p.1, f p.2) else p)

/-- `del pool[logger_id]`. -/
def poolErase (pool : List (Nat × PooledLogger)) (logger_id : Nat) :
    List (Nat × PooledLogger) :=
  pool.filter (fun p => p.1 != logger_id)

/-- `TelegramLogger._create_pooled_logger(service_name, debug=False,
warning=False, info=False)`: builds a `LoggerConfig` with `error_enabled`
and `critical_enabled` forced to `True`, a fresh `PooledLogger` with
`created_at = last_used = now` and `message_count = 0`, inserts it into
the pool, and returns the drawn identity. The uuid draw is the `newId`
argument. -/
def create_pooled_logger (st : TelegramLogger) (newId : Nat) (now : Nat)
    (service_name : String) (debug : Bool := false) (warning : Bool := false)
    (info : Bool := false) : TelegramLogger × Nat :=
  let config : LoggerConfig :=
    { service_name := service_name
      debug_enabled := debug
      warning_enabled := warning
      info_enabled := info
      error_enabled := true
      critical_enabled := true }
  let pool_entry : PooledLogger :=
    { logger_id := newId
      config := config
      created_at := now
      last_used := now
      message_count := 0 }
  ({ st with pool := st.pool ++ [(newId, pool_entry)] }, newId)

/-- `TelegramLogger.get_logger`: if the identity is known, set its
`last_used` to `now` (a successful lookup counts as usage), then return
the pool's entry for it. -/
def get_logger (st : TelegramLogger) (logger_id : Nat) (now : Nat) :
    TelegramLogger × Option PooledLogger :=
  let st' :=
    if (poolLookup st.pool logger_id).isSome then
      { st with
        pool := poolUpdate st.pool logger_id (fun e => { e with last_used := now }) }
    else st
  (st', poolLookup st'.pool logger_id)

/-- `TelegramLogger.get_logger_config`: configuration of a pooled logger,
`None` when the identity is unknown. (`to_dict` is rendering only; the
embedding returns the configuration record itself.) -/
def get_logger_config (st : TelegramLogger) (logger_id : Nat) :
    Option LoggerConfig :=
  (poolLookup st.pool logger_id).map (fun e => e.config)

/-- The three `if debug is not None: ... if warning is not None: ...
if info is not None: ...` assignments of `configure_pool_logger`: fields
passed as `None` are left unchanged. -/
def applyGateUpdates (c : LoggerConfig) (debug warning info : Option Bool) :
    LoggerConfig :=
  let c1 := match debug with
    | some b => { c with debug_enabled := b }
    | none => c
  let c2 := match warning with
    | some b => { c1 with warning_enabled := b }
    | none => c1
  match info with
  | some b => { c2 with info_enabled := b }
  | none => c2

/-- `TelegramLogger.configure_pool_logger(logger_id, debug=None,
warning=None, info=None)`: partial update of the three caller-settable
gates; returns the resulting configuration, or `None` for an unknown
identity. -/
def configure_pool_logger (st : TelegramLogger) (logger_id : Nat)
    (debug warning info : Option Bool) : TelegramLogger × Option LoggerConfig :=
  match poolLookup st.pool logger_id with
  | none => (st, none)
  | some entry =>
    let c3 := applyGateUpdates entry.config debug warning info
    ({ st with pool := poolUpdate st.pool logger_id (fun e => { e with config := c3 }) },
     some c3)

/-- `update_logger_config` delegates to `configure_pool_logger`. -/
def update_logger_config (st : TelegramLogger) (logger_id : Nat)
    (debug warning info : Option Bool) : TelegramLogger × Option LoggerConfig :=
  configure_pool_logger st logger_id debug warning info

/-- `hasattr(self.config, f"{level}_enabled")` for `ServiceLogger.set_level`:
true exactly for the five gate fields of `LoggerConfig`. -/
def hasLevelAttr (level : String) : Bool :=
  level == "debug" || level == "info" || level == "warning" ||
  level == "error" || level == "critical"

/-- `setattr(self.config, f"{level}_enabled", enabled)`. -/
def LoggerConfig.setLevelAttr (c : LoggerConfig) (level : String)
    (enabled : Bool) : LoggerConfig :=
  if level == "debug" then { c with debug_enabled := enabled }
  else if level == "info" then { c with info_enabled := enabled }
  else if level == "warning" then { c with warning_enabled := enabled }
  else if level == "error" then { c with error_enabled := enabled }
  else if level == "critical" then { c with critical_enabled := enabled }
  else c

/-- `ServiceLogger.set_level(level, enabled)`: mutates the gate only when
the attribute exists and the level is not `error`/`critical`. The instance
is addressed by its pool identity (see header note on aliasing). -/
def set_level (st : TelegramLogger) (logger_id : Nat) (level : String)
    (enabled : Bool) : TelegramLogger :=
  if hasLevelAttr level && !(level == "error" || level == "critical") then
    { st with
      pool := poolUpdate st.pool logger_id
        (fun e => { e with config := e.config.setLevelAttr level enabled }) }
  else st

/-- `Queue.put` on the bounded dispatch queue: appends when a slot is
free; a `put` on a full queue blocks the caller until space frees up,
rendered as `none` (the call does not complete and no enqueue happens). -/
def queue_put (cap : Nat) (q : List LogEntry) (e : LogEntry) :
    Option (List LogEntry) :=
  if q.length < cap then some (q ++ [e]) else none

/-- The shared body of `ServiceLogger.debug/info/warning/error/critical`:
if `_should_log(level)` fails, do nothing; otherwise set the pool entry's
`last_used` to `now` (`_update_pool_entry`), `queue.put` a `LogEntry`
stamped `now`, then increment the entry's `message_count`. `none` means
the `queue.put` blocked (full queue). The instance is addressed by its
pool identity; an identity absent from the pool leaves the state as is. -/
def log_call (st : TelegramLogger) (logger_id : Nat) (level message : String)
    (metadata : Option (List (String × String))) (trace : Option String)
    (now : Nat) : Option TelegramLogger :=
  match poolLookup st.pool logger_id with
  | none => some st
  | some entry =>
    if entry.config.is_level_enabled level then
      let st1 := { st with
        pool := poolUpdate st.pool logger_id (fun e => { e with last_used := now }) }
      match queue_put LOG_QUEUE_MAXSIZE st1.log_queue
          { level := level
            message := message
            service := some entry.config.service_name
            metadata := metadata
            timestamp := now
            traceback := trace } with
      | none => none
      | some q =>
        some { st1 with
          log_queue := q
          pool := poolUpdate st1.pool logger_id
            (fun e => { e with message_count := e.message_count + 1 }) }
    else some st

/-- `ServiceLogger.debug`. -/
def ServiceLogger_debug (st : TelegramLogger) (logger_id : Nat)
    (message : String) (metadata : Option (List (String × String))) (now : Nat) :
    Option TelegramLogger :=
  log_call st logger_id "debug" message metadata none now

/-- `ServiceLogger.info`. -/
def ServiceLogger_info (st : TelegramLogger) (logger_id : Nat)
    (message : String) (metadata : Option (List (String × String))) (now : Nat) :
    Option TelegramLogger :=
  log_call st logger_id "info" message metadata none now

/-- `ServiceLogger.warning`. -/
def ServiceLogger_warning (st : TelegramLogger) (logger_id : Nat)
    (message : String) (metadata : Option (List (String × String))) (now : Nat) :
    Option TelegramLogger :=
  log_call st logger_id "warning" message metadata none now

/-- `ServiceLogger.error` (`trace` is `traceback.format_exc()` when
`exc_info` is set, else `None`). -/
def ServiceLogger_error (st : TelegramLogger) (logger_id : Nat)
    (message : String) (metadata : Option (List (String × String)))
    (trace : Option String) (now : Nat) : Option TelegramLogger :=
  log_call st logger_id "error" message metadata trace now

/-- `ServiceLogger.critical`. -/
def ServiceLogger_critical (st : TelegramLogger) (logger_id : Nat)
    (message : String) (metadata : Option (List (String × String)))
    (trace : Option String) (now : Nat) : Option TelegramLogger :=
  log_call st logger_id "critical" message metadata trace now

/-- `TelegramLogger._remove_logger`: when the identity is pooled, delete
both pool map entries, then scan `_service_to_logger_id` and delete every
alias whose value is this identity; returns whether anything was removed. -/
def remove_logger (st : TelegramLogger) (logger_id : Nat) :
    TelegramLogger × Bool :=
  if (poolLookup st.pool logger_id).isSome then
    ({ st with
       pool := poolErase st.pool logger_id
       service_to_logger_id :=
         st.service_to_logger_id.filter (fun p => p.2 != logger_id) },
     true)
  else (st, false)

/-- Snapshot produced by `PooledLogger.to_dict` (ISO rendering of the
timestamps elided; `age_seconds` is computed against `datetime.now()`). -/
structure LoggerInfo where
  logger_id : Nat
  service_name : String
  config : LoggerConfig
  created_at : Nat
  last_used : Nat
  age_seconds : Nat
  message_count : Nat
deriving Repr, DecidableEq

/-- `PooledLogger.to_dict`. -/
def PooledLogger.to_dict (e : PooledLogger) (now : Nat) : LoggerInfo :=
  { logger_id := e.logger_id
    service_name := e.config.service_name
    config := e.config
    created_at := e.created_at
    last_used := e.last_used
    age_seconds := now - e.created_at
    message_count := e.message_count }

/-- `TelegramLogger.get_pool_logger_info`: pure read of the metadata map;
the state is passed through untouched because the method only reads. -/
def get_pool_logger_info (st : TelegramLogger) (logger_id : Nat) (now : Nat) :
    TelegramLogger × Option LoggerInfo :=
  (st, (poolLookup st.pool logger_id).map (fun e => e.to_dict now))

/-- `TelegramLogger.get_logger_info` delegates to `get_pool_logger_info`. -/
def get_logger_info (st : TelegramLogger) (logger_id : Nat) (now : Nat) :
    TelegramLogger × Option LoggerInfo :=
  get_pool_logger_info st logger_id now

/-- One pass of the body of `TelegramLogger._cleanup_worker` after the
sleep: skip entirely when `enable_ttl_cleanup` is false; otherwise collect
every identity whose idle age `now - last_used` is strictly greater than
`ttl_seconds`, then remove each via `_remove_logger`. -/
def cleanup_worker_sweep (st : TelegramLogger) (now : Nat) : TelegramLogger :=
  if !st.enable_ttl_cleanup then st
  else
    let expired_ids :=
      (st.pool.filter (fun p => now - p.2.last_used > st.ttl_seconds)).map Prod.fst
    expired_ids.foldl (fun s i => (remove_logger s i).1) st

/-- `TelegramLogger.get_service_logger` (get-or-create by service label):
returns the pooled identity for the label, creating a logger with the
all-default gates and recording the alias on a miss. `freshId` is the
uuid drawn on the create path. -/
def get_service_logger (st : TelegramLogger) (service_name : String)
    (freshId : Nat) (now : Nat) : TelegramLogger × Nat :=
  match st.service_to_logger_id.find? (fun p => p.1 == service_name) with
  | some p => (st, p.2)
  | none =>
    let r := create_pooled_logger st freshId now service_name
    ({ r.1 with
       service_to_logger_id := r.1.service_to_logger_id ++ [(service_name, r.2)] },
     r.2)

/-- `TelegramLogger.set_ttl_cleanup(enabled)`: stores the flag and returns
the value it was set to. -/
def set_ttl_cleanup (st : TelegramLogger) (enabled : Bool) :
    TelegramLogger × Bool :=
  ({ st with enable_ttl_cleanup := enabled }, enabled)

/-- `TelegramLogger.get_ttl_cleanup_status` payload. -/
structure TtlStatus where
  enabled : Bool
  ttl_seconds : Nat
  pool_size : Nat
deriving Repr, DecidableEq

/-- `TelegramLogger.get_ttl_cleanup_status`. -/
def get_ttl_cleanup_status (st : TelegramLogger) : TtlStatus :=
  { enabled := st.enable_ttl_cleanup
    ttl_seconds := st.ttl_seconds
    pool_size := st.pool.length }

/-- Endpoint `toggle_ttl_cleanup` (`POST /api/logger/ttl/toggle`): when the
request body carries no `enabled` field, the flag is negated; otherwise the
given boolean is used; `set_ttl_cleanup` stores it and the response's
`enabled` field reports the returned new state. -/
def toggle_ttl_cleanup (st : TelegramLogger) (enabledArg : Option Bool) :
    TelegramLogger × Bool :=
  let enabled :=
    match enabledArg with
    | none => !st.enable_ttl_cleanup
    | some b => b
  set_ttl_cleanup st enabled

/-- Endpoint `create_logger` (`POST /api/logger/create`): request fields
missing from the body default to `unknown_service` / `False`, and the
registry create is invoked with them. -/
def api_create_logger (st : TelegramLogger) (newId : Nat) (now : Nat)
    (service_name : Option String) (debug warning info : Option Bool) :
    TelegramLogger × Nat :=
  create_pooled_logger st newId now (service_name.getD "unknown_service")
    (debug.getD false) (warning.getD false) (info.getD false)

/-- The five level names accepted by the log endpoint. -/
def validLevels : List String :=
  ["debug", "info", "warning", "error", "critical"]

/-- `str.lower()` applied to the request's level field, modelled over the
character list (`Char.toLower` per character, which is what matters for
the ASCII level names). -/
def lowerString (s : String) : String :=
  String.mk (s.data.map Char.toLower)

/-- Outcome of the log endpoint: 400 on validation failure, 404 when the
identity is unknown, `blocked` when the enqueue never completes, or the
post-state on success. -/
inductive ApiLogResult where
  | invalidInput (st : TelegramLogger)
  | notFound (st : TelegramLogger)
  | blocked
  | logged (st : TelegramLogger)
deriving Repr, DecidableEq

/-- Endpoint `log_message` (`POST /api/logger/<id>/log`): lowercases the
level (defaulting to `info`), rejects an empty message or an unknown level
with 400, resolves the logger via `get_logger` (which touches `last_used`
on a hit), answers 404 on a miss, and otherwise dispatches to the
level-named `ServiceLogger` method with `exc_info` left `False`. -/
def api_log_message (st : TelegramLogger) (logger_id : Nat)
    (levelArg : Option String) (message : String)
    (metadata : Option (List (String × String))) (now : Nat) : ApiLogResult :=
  let level := lowerString (levelArg.getD "info")
  if message = "" then .invalidInput st
  else if !(validLevels.contains level) then .invalidInput st
  else
    let r := get_logger st logger_id now
    match r.2 with
    | none => .notFound r.1
    | some _ =>
      match log_call r.1 logger_id level message metadata none now with
      | none => .blocked
      | some st2 => .logged st2

/-!
### Association-list lemmas

Small facts about `poolLookup`, `poolUpdate` and `poolErase` used to settle
the claims; they mirror the dictionary operations of the source.
-/

theorem poolLookup_nil (i : Nat) : poolLookup [] i = none := rfl

theorem poolLookup_cons (k : Nat) (e : PooledLogger)
    (tl : List (Nat × PooledLogger)) (i : Nat) :
    poolLookup ((k, e) :: tl) i = if k = i then some e else poolLookup tl i := by
  by_cases h : k = i <;> simp [poolLookup, List.find?_cons, h]

theorem poolUpdate_cons (k : Nat) (e : PooledLogger)
    (tl : List (Nat × PooledLogger)) (i : Nat) (f : PooledLogger → PooledLogger) :
    poolUpdate ((k, e) :: tl) i f =
      (if k = i then (k, f e) else (k, e)) :: poolUpdate tl i f := by
  by_cases h : k = i <;> simp [poolUpdate, h]

theorem poolErase_cons (k : Nat) (e : PooledLogger)
    (tl : List (Nat × PooledLogger)) (i : Nat) :
    poolErase ((k, e) :: tl) i =
      if k = i then poolErase tl i else (k, e) :: poolErase tl i := by
  by_cases h : k = i <;> simp [poolErase, h]

theorem poolLookup_update (pool : List (Nat × PooledLogger)) (i j : Nat)
    (f : PooledLogger → PooledLogger) :
    poolLookup (poolUpdate pool i f) j =
      (poolLookup pool j).map (fun e => if j = i then f e else e) := by
  induction pool with
  | nil => simp [poolUpdate, poolLookup]
  | cons hd tl ih =>
    obtain ⟨k, e⟩ := hd
    by_cases hk : k = i <;> by_cases hj : k = j <;>
      simp_all [poolUpdate_cons, poolLookup_cons]

theorem poolLookup_erase (pool : List (Nat × PooledLogger)) (i j : Nat) :
    poolLookup (poolErase pool i) j =
      if j = i then none else poolLookup pool j := by
  induction pool with
  | nil => simp [poolErase, poolLookup]
  | cons hd tl ih =>
    obtain ⟨k, e⟩ := hd
    by_cases hk : k = i <;> by_cases hj : j = i <;> by_cases hkj : k = j <;>
      simp_all [poolErase_cons, poolLookup_cons]

theorem poolLookup_eq_none_iff (pool : List (Nat × PooledLogger)) (i : Nat) :
    poolLookup pool i = none ↔ ∀ p ∈ pool, p.1 ≠ i := by
  simp [poolLookup, List.find?_eq_none]

theorem poolLookup_append (l₁ l₂ : List (Nat × PooledLogger)) (i : Nat) :
    poolLookup (l₁ ++ l₂) i =
      match poolLookup l₁ i with
      | some e => some e
      | none => poolLookup l₂ i := by
  induction l₁ with
  | nil => simp [poolLookup]
  | cons hd tl ih =>
    obtain ⟨k, e⟩ := hd
    by_cases hk : k = i <;> simp_all [poolLookup_cons]

theorem mem_of_poolLookup (pool : List (Nat × PooledLogger)) (i : Nat)
    (e : PooledLogger) (h : poolLookup pool i = some e) : (i, e) ∈ pool := by
  unfold poolLookup at h
  cases hf : pool.find? (fun p => p.1 == i) with
  | none => rw [hf] at h; simp at h
  | some q =>
    rw [hf] at h
    have hv : q.2 = e := by simpa using h
    have hm := List.mem_of_find?_eq_some hf
    have hq : q.1 = i := by
      have := List.find?_some hf
      simpa using this
    obtain ⟨k, v⟩ := q
    simp only at hq hv
    rw [hq, hv] at hm
    exact hm

theorem poolLookup_eq_of_mem_nodup (pool : List (Nat × PooledLogger))
    (hnd : (pool.map Prod.fst).Nodup) (i : Nat) (e : PooledLogger)
    (hm : (i, e) ∈ pool) : poolLookup pool i = some e := by
  induction pool with
  | nil => simp at hm
  | cons hd tl ih =>
    obtain ⟨k, v⟩ := hd
    simp only [List.map_cons, List.nodup_cons] at hnd
    rcases List.mem_cons.mp hm with h1 | h2
    · injection h1 with hik hev
      rw [poolLookup_cons, if_pos hik.symm, hev]
    · have hki : k ≠ i := by
        intro hk
        exact hnd.1 (hk ▸ List.mem_map_of_mem Prod.fst h2)
      rw [poolLookup_cons, if_neg hki]
      exact ih hnd.2 h2

theorem poolLookup_foldl_erase (ids : List Nat)
    (pool : List (Nat × PooledLogger)) (j : Nat) :
    poolLookup (ids.foldl poolErase pool) j =
      if j ∈ ids then none else poolLookup pool j := by
  induction ids generalizing pool with
  | nil => simp
  | cons i tl ih =>
    rw [List.foldl_cons, ih]
    by_cases hj : j = i
    · subst hj; simp [poolLookup_erase]
    · by_cases hm : j ∈ tl <;> simp [hm, hj, poolLookup_erase]

theorem remove_logger_pool (s : TelegramLogger) (i : Nat) :
    (remove_logger s i).1.pool = poolErase s.pool i := by
  unfold remove_logger
  cases hc : poolLookup s.pool i with
  | some e => simp [hc]
  | none =>
    simp only [hc, Option.isSome_none, Bool.false_eq_true, if_false]
    have hall := (poolLookup_eq_none_iff s.pool i).mp hc
    unfold poolErase
    refine ((List.filter_eq_self).mpr ?_).symm
    intro p hp
    simpa using hall p hp

theorem foldl_remove_pool (ids : List Nat) (s : TelegramLogger) :
    (ids.foldl (fun t i => (remove_logger t i).1) s).pool =
      ids.foldl poolErase s.pool := by
  induction ids generalizing s with
  | nil => rfl
  | cons i tl ih =>
    rw [List.foldl_cons, List.foldl_cons, ih, remove_logger_pool]

/-!
### Concrete states used by witnesses
-/

/-- A state with nothing pooled (TTL settings at the constructor
defaults). -/
def emptyState : TelegramLogger :=
  { ttl_seconds := 3600
    enable_ttl_cleanup := true
    pool := []
    service_to_logger_id := []
    log_queue := []
    stats_sent := 0
    stats_failed := 0 }

/-- A configuration with debug off and info/warning on. -/
def wcfg : LoggerConfig :=
  { service_name := "svc"
    debug_enabled := false
    warning_enabled := true
    info_enabled := true
    error_enabled := true
    critical_enabled := true }

/-- A pool entry for `wcfg`. -/
def wentry : PooledLogger :=
  { logger_id := 1
    config := wcfg
    created_at := 0
    last_used := 0
    message_count := 0 }

/-- A state holding exactly the entry `wentry` under identity 1 with the
alias `svc -> 1`. -/
def wstate : TelegramLogger :=
  { emptyState with
    pool := [(1, wentry)]
    service_to_logger_id := [("svc", 1)] }

/-- Unfolding of the pool produced by `create_pooled_logger`. -/
theorem create_pool_eq (st : TelegramLogger) (newId now : Nat) (name : String)
    (d w i : Bool) :
    (create_pooled_logger st newId now name d w i).1.pool =
      st.pool ++ [(newId,
        { logger_id := newId
          config := { service_name := name, debug_enabled := d,
                      warning_enabled := w, info_enabled := i,
                      error_enabled := true, critical_enabled := true }
          created_at := now
          last_used := now
          message_count := 0 })] := rfl

/-!
### Claim theorems
-/

/-- C8: the TTL-toggle endpoint called with no `enabled` field negates the
current `enable_ttl_cleanup` flag, stores the negation, and reports it;
called with an explicit boolean it stores that boolean and reports it. -/
theorem C8_ttl_toggle (st : TelegramLogger) :
    toggle_ttl_cleanup st none =
      ({ st with enable_ttl_cleanup := !st.enable_ttl_cleanup },
       !st.enable_ttl_cleanup) ∧
    (∀ b, toggle_ttl_cleanup st (some b) =
      ({ st with enable_ttl_cleanup := b }, b)) := by
  exact ⟨rfl, fun b => rfl⟩

/-- C3: a log call at a level whose gate is disabled in the instance's
configuration returns the state unchanged — the entry's `message_count`
and `last_used` keep their values and nothing is enqueued. -/
theorem C3_disabled_level_noop (st : TelegramLogger) (logger_id : Nat)
    (e : PooledLogger) (level message : String)
    (metadata : Option (List (String × String))) (trace : Option String)
    (now : Nat) (he : poolLookup st.pool logger_id = some e)
    (hdis : e.config.is_level_enabled level = false) :
    log_call st logger_id level message metadata trace now = some st := by
  unfold log_call
  rw [he]
  simp [hdis]

/-- C3 witness: on the concrete entry, a debug call (debug gate off) is a
no-op. -/
theorem C3_witness :
    poolLookup wstate.pool 1 = some wentry ∧
    wentry.config.is_level_enabled "debug" = false ∧
    log_call wstate 1 "debug" "x" none none 5 = some wstate :=
  ⟨rfl, rfl, C3_disabled_level_noop wstate 1 wentry "debug" "x" none none 5 rfl rfl⟩

/-- C9: a successful `get_logger` lookup sets the entry's `last_used` to
the current time (a lookup alone counts as usage), returns the refreshed
entry and leaves every other entry, the queue and the alias map untouched;
a lookup of an unknown identity returns `none` with the state unchanged. -/
theorem C9_get_logger_touches (st : TelegramLogger) (logger_id now : Nat) :
    (∀ e, poolLookup st.pool logger_id = some e →
      (get_logger st logger_id now).2 = some { e with last_used := now } ∧
      poolLookup (get_logger st logger_id now).1.pool logger_id =
        some { e with last_used := now } ∧
      (∀ j, j ≠ logger_id →
        poolLookup (get_logger st logger_id now).1.pool j =
          poolLookup st.pool j) ∧
      (get_logger st logger_id now).1.log_queue = st.log_queue ∧
      (get_logger st logger_id now).1.service_to_logger_id =
        st.service_to_logger_id) ∧
    (poolLookup st.pool logger_id = none →
      get_logger st logger_id now = (st, none)) := by
  constructor
  · intro e he
    have hsome : (poolLookup st.pool logger_id).isSome = true := by
      rw [he]; rfl
    have hup : poolLookup (poolUpdate st.pool logger_id
        (fun x => { x with last_used := now })) logger_id =
        some { e with last_used := now } := by
      rw [poolLookup_update, he]; simp
    have hg : get_logger st logger_id now =
        ({ st with
            pool := poolUpdate st.pool logger_id (fun x => { x with last_used := now }) },
         some { e with last_used := now }) := by
      simp [get_logger, hsome, hup]
    refine ⟨?_, ?_, ?_, ?_, ?_⟩
    · rw [hg]
    · rw [hg]; exact hup
    · intro j hj
      rw [hg]
      simp [poolLookup_update, hj]
    · rw [hg]
    · rw [hg]
  · intro hnone
    have hns : (poolLookup st.pool logger_id).isSome = false := by
      rw [hnone]; rfl
    simp [get_logger, hns, hnone]

/-- C9 witness: the concrete known identity is touched to the query time,
the unknown identity changes nothing. -/
theorem C9_witness :
    poolLookup wstate.pool 1 = some wentry ∧
    (get_logger wstate 1 5).2 = some { wentry with last_used := 5 } ∧
    poolLookup wstate.pool 2 = none ∧
    get_logger wstate 2 5 = (wstate, none) :=
  ⟨rfl, ((C9_get_logger_touches wstate 1 5).1 wentry rfl).1, rfl,
   (C9_get_logger_touches wstate 2 5).2 rfl⟩

/-- C10: the pool-info query path is read-only: the state comes back
unchanged (every entry keeps its `last_used` and `message_count`), the
snapshot of a known identity is the entry's `to_dict`, and a TTL sweep
after the query behaves exactly as a sweep without it. -/
theorem C10_info_read_only (st : TelegramLogger) (logger_id now now2 : Nat) :
    (get_pool_logger_info st logger_id now).1 = st ∧
    (get_logger_info st logger_id now).1 = st ∧
    (∀ e, poolLookup st.pool logger_id = some e →
      (get_logger_info st logger_id now).2 = some (e.to_dict now)) ∧
    cleanup_worker_sweep (get_logger_info st logger_id now).1 now2 =
      cleanup_worker_sweep st now2 := by
  refine ⟨rfl, rfl, ?_, rfl⟩
  intro e he
  simp [get_logger_info, get_pool_logger_info, he]

/-- C10 witness: info query on the concrete entry returns its snapshot
and the state exactly as it was. -/
theorem C10_witness :
    poolLookup wstate.pool 1 = some wentry ∧
    (get_logger_info wstate 1 9).1 = wstate ∧
    (get_logger_info wstate 1 9).2 = some (wentry.to_dict 9) :=
  ⟨rfl, (C10_info_read_only wstate 1 9 0).2.1,
   (C10_info_read_only wstate 1 9 0).2.2.1 wentry rfl⟩

/-- C4: a log call at an enabled level increments the entry's
`message_count` by exactly one, sets `last_used` to the call time (which
is ≥ its previous value under a monotone clock), appends exactly one
record for the message to the dispatch queue, and leaves every other
entry alone. The queue-room hypothesis reflects that a `put` on a full
queue never completes (see C6). -/
theorem C4_enabled_level_logs (st : TelegramLogger) (logger_id : Nat)
    (e : PooledLogger) (level message : String)
    (metadata : Option (List (String × String))) (trace : Option String)
    (now : Nat) (he : poolLookup st.pool logger_id = some e)
    (hen : e.config.is_level_enabled level = true)
    (hq : st.log_queue.length < LOG_QUEUE_MAXSIZE)
    (hmono : e.last_used ≤ now) :
    ∃ st' e', log_call st logger_id level message metadata trace now = some st' ∧
      poolLookup st'.pool logger_id = some e' ∧
      e'.message_count = e.message_count + 1 ∧
      e'.last_used = now ∧
      e.last_used ≤ e'.last_used ∧
      e'.config = e.config ∧
      e'.created_at = e.created_at ∧
      st'.log_queue = st.log_queue ++
        [{ level := level, message := message,
           service := some e.config.service_name, metadata := metadata,
           timestamp := now, traceback := trace }] ∧
      (∀ j, j ≠ logger_id → poolLookup st'.pool j = poolLookup st.pool j) := by
  have hres : log_call st logger_id level message metadata trace now =
      some { st with
        pool := poolUpdate
          (poolUpdate st.pool logger_id (fun x => { x with last_used := now }))
          logger_id (fun x => { x with message_count := x.message_count + 1 })
        log_queue := st.log_queue ++
          [{ level := level, message := message,
             service := some e.config.service_name, metadata := metadata,
             timestamp := now, traceback := trace }] } := by
    unfold log_call queue_put
    rw [he]
    simp [hen, hq]
  refine ⟨_, { e with last_used := now, message_count := e.message_count + 1 },
    hres, ?_, rfl, rfl, hmono, rfl, rfl, rfl, ?_⟩
  · rw [poolLookup_update, poolLookup_update, he]
    simp
  · intro j hj
    rw [poolLookup_update, poolLookup_update]
    simp [hj]

/-- C4 witness: an info call on the concrete info-enabled entry. -/
theorem C4_witness :
    poolLookup wstate.pool 1 = some wentry ∧
    wentry.config.is_level_enabled "info" = true ∧
    wstate.log_queue.length < LOG_QUEUE_MAXSIZE ∧
    wentry.last_used ≤ 5 ∧
    (∃ st' e', log_call wstate 1 "info" "y" none none 5 = some st' ∧
      poolLookup st'.pool 1 = some e' ∧
      e'.message_count = wentry.message_count + 1 ∧
      e'.last_used = 5 ∧
      wentry.last_used ≤ e'.last_used ∧
      e'.config = wentry.config ∧
      e'.created_at = wentry.created_at ∧
      st'.log_queue = wstate.log_queue ++
        [{ level := "info", message := "y",
           service := some wentry.config.service_name, metadata := none,
           timestamp := 5, traceback := none }] ∧
      (∀ j, j ≠ 1 → poolLookup st'.pool j = poolLookup wstate.pool j)) :=
  ⟨rfl, rfl, by decide, by decide,
   C4_enabled_level_logs wstate 1 wentry "info" "y" none none 5 rfl rfl
     (by decide) (by decide)⟩

/-- C5 counterexample: `_create_pooled_logger` (and the create endpoint)
default the caller-settable gates to `debug=False, warning=False,
info=False`, so a logger created with default arguments has the info gate
off — not on, as the claim asserts — and the subsequent info call is a
silent no-op instead of an enqueue that brings `message_count` to 1. -/
theorem C5_counterexample :
    (get_logger_config (create_pooled_logger emptyState 1 0 "svc").1 1).map
        (fun c => (c.debug_enabled, c.warning_enabled, c.info_enabled)) =
      some (false, false, false) ∧
    log_call (create_pooled_logger emptyState 1 0 "svc").1 1 "info" "y" none
        none 0 =
      some (create_pooled_logger emptyState 1 0 "svc").1 ∧
    (poolLookup (create_pooled_logger emptyState 1 0 "svc").1.pool 1).map
        (fun e => e.message_count) = some 0 := by
  refine ⟨rfl, ?_, rfl⟩
  rfl

/-- C5 amended: creating a logger with default gate arguments yields a
configuration with debug, warning and info all disabled (only error and
critical on), so on the fresh logger a debug call and an info call are
both silent no-ops: nothing is enqueued and `message_count` stays 0. -/
theorem C5_default_gates_all_off (st : TelegramLogger) (newId now : Nat)
    (name : String) (hfresh : poolLookup st.pool newId = none) :
    get_logger_config (create_pooled_logger st newId now name).1 newId =
      some { service_name := name, debug_enabled := false,
             warning_enabled := false, info_enabled := false,
             error_enabled := true, critical_enabled := true } ∧
    log_call (create_pooled_logger st newId now name).1 newId "debug" "x"
        none none now = some (create_pooled_logger st newId now name).1 ∧
    log_call (create_pooled_logger st newId now name).1 newId "info" "y"
        none none now = some (create_pooled_logger st newId now name).1 ∧
    (poolLookup (create_pooled_logger st newId now name).1.pool newId).map
        (fun e => e.message_count) = some 0 := by
  have hl : poolLookup (create_pooled_logger st newId now name).1.pool newId =
      some { logger_id := newId
             config := { service_name := name, debug_enabled := false,
                         warning_enabled := false, info_enabled := false,
                         error_enabled := true, critical_enabled := true }
             created_at := now
             last_used := now
             message_count := 0 } := by
    rw [create_pool_eq, poolLookup_append, hfresh]
    simp [poolLookup_cons]
  refine ⟨?_, ?_, ?_, ?_⟩
  · unfold get_logger_config
    rw [hl]
    rfl
  · unfold log_call
    rw [hl]
    simp [LoggerConfig.is_level_enabled]
  · unfold log_call
    rw [hl]
    simp [LoggerConfig.is_level_enabled]
  · rw [hl]
    rfl

/-- C5 witness for the amended claim, at a concrete fresh identity. -/
theorem C5_witness :
    poolLookup emptyState.pool 1 = none ∧
    (get_logger_config (create_pooled_logger emptyState 1 0 "svc").1 1 =
      some { service_name := "svc", debug_enabled := false,
             warning_enabled := false, info_enabled := false,
             error_enabled := true, critical_enabled := true } ∧
    log_call (create_pooled_logger emptyState 1 0 "svc").1 1 "debug" "x"
        none none 0 = some (create_pooled_logger emptyState 1 0 "svc").1 ∧
    log_call (create_pooled_logger emptyState 1 0 "svc").1 1 "info" "y"
        none none 0 = some (create_pooled_logger emptyState 1 0 "svc").1 ∧
    (poolLookup (create_pooled_logger emptyState 1 0 "svc").1.pool 1).map
        (fun e => e.message_count) = some 0) :=
  ⟨rfl, C5_default_gates_all_off emptyState 1 0 "svc" rfl⟩

/-- A dispatch queue filled to its 10000-entry capacity. -/
def fullQueueEntry : LogEntry :=
  { level := "info", message := "m", service := none, metadata := none,
    timestamp := 0, traceback := none }

/-- `wstate` with the dispatch queue at capacity. -/
def fullQueueState : TelegramLogger :=
  { emptyState with
    pool := [(1, wentry)]
    service_to_logger_id := [("svc", 1)]
    log_queue := List.replicate LOG_QUEUE_MAXSIZE fullQueueEntry }

/-- C6 counterexample: with the dispatch queue at capacity, an enabled
log call yields no completed outcome at all — the blocking `queue.put`
never returns — so no state in which the record was dropped and
`stats_failed` was incremented is ever produced, contrary to the claim's
drop-and-count policy. -/
theorem C6_counterexample :
    log_call fullQueueState 1 "info" "x" none none 5 = none := by
  have hl : poolLookup fullQueueState.pool 1 = some wentry := rfl
  unfold log_call queue_put
  rw [hl]
  have hlen : (fullQueueState.log_queue).length = LOG_QUEUE_MAXSIZE := by
    simp [fullQueueState]
  simp [wentry, wcfg, LoggerConfig.is_level_enabled, hlen]

/-- C6 amended: when the bounded dispatch queue is full, an enabled log
call does not drop the record and does not count a failure; the blocking
`queue.put` never completes (the call yields no post-state), so neither
an enqueue nor a `stats_failed` increment nor any error surfaced to the
caller can be observed. -/
theorem C6_full_queue_blocks (st : TelegramLogger) (logger_id : Nat)
    (e : PooledLogger) (level message : String)
    (metadata : Option (List (String × String))) (trace : Option String)
    (now : Nat) (he : poolLookup st.pool logger_id = some e)
    (hen : e.config.is_level_enabled level = true)
    (hfull : LOG_QUEUE_MAXSIZE ≤ st.log_queue.length) :
    log_call st logger_id level message metadata trace now = none := by
  unfold log_call queue_put
  rw [he]
  simp [hen, Nat.not_lt.mpr hfull]

/-- C6 witness: the blocked call at the concrete full-queue state. -/
theorem C6_witness :
    poolLookup fullQueueState.pool 1 = some wentry ∧
    wentry.config.is_level_enabled "info" = true ∧
    LOG_QUEUE_MAXSIZE ≤ fullQueueState.log_queue.length ∧
    log_call fullQueueState 1 "info" "x" none none 5 = none :=
  ⟨rfl, rfl, by simp [fullQueueState],
   C6_full_queue_blocks fullQueueState 1 wentry "info" "x" none none 5 rfl rfl
     (by simp [fullQueueState])⟩

/-- The pool left by one sweep, as a fold of erasures over the collected
expired identities. -/
theorem sweep_pool_eq (st : TelegramLogger) (now : Nat)
    (hen : st.enable_ttl_cleanup = true) :
    (cleanup_worker_sweep st now).pool =
      ((st.pool.filter
          (fun p => now - p.2.last_used > st.ttl_seconds)).map Prod.fst).foldl
        poolErase st.pool := by
  unfold cleanup_worker_sweep
  rw [hen]
  simp only [Bool.not_true, Bool.false_eq_true, if_false]
  exact foldl_remove_pool _ _

/-- C1: while `enable_ttl_cleanup` is false a sweep is the identity on the
state; while it is true, a sweep removes exactly the entries whose idle
time `now - last_used` strictly exceeds `ttl_seconds`, and every entry
idle for at most `ttl_seconds` survives unchanged (pool keys are distinct,
as Python dict keys are). -/
theorem C1_reaper_sweep (st : TelegramLogger) (now : Nat)
    (hnd : (st.pool.map Prod.fst).Nodup) :
    (st.enable_ttl_cleanup = false → cleanup_worker_sweep st now = st) ∧
    (st.enable_ttl_cleanup = true →
      ∀ i e, poolLookup st.pool i = some e →
        (now - e.last_used > st.ttl_seconds →
          poolLookup (cleanup_worker_sweep st now).pool i = none) ∧
        (now - e.last_used ≤ st.ttl_seconds →
          poolLookup (cleanup_worker_sweep st now).pool i = some e)) := by
  constructor
  · intro hdis
    unfold cleanup_worker_sweep
    rw [hdis]
    rfl
  · intro hen i e he
    rw [sweep_pool_eq st now hen, poolLookup_foldl_erase]
    constructor
    · intro hstale
      have hmem : i ∈ (st.pool.filter
          (fun p => now - p.2.last_used > st.ttl_seconds)).map Prod.fst := by
        have hm : (i, e) ∈ st.pool.filter
            (fun p => now - p.2.last_used > st.ttl_seconds) := by
          refine List.mem_filter.mpr ⟨mem_of_poolLookup st.pool i e he, ?_⟩
          simpa using hstale
        simpa using List.mem_map_of_mem Prod.fst hm
      rw [if_pos hmem]
    · intro hlive
      have hnmem : i ∉ (st.pool.filter
          (fun p => now - p.2.last_used > st.ttl_seconds)).map Prod.fst := by
        intro hmem
        obtain ⟨p, hp, hfst⟩ := List.mem_map.mp hmem
        obtain ⟨hpmem, hpred⟩ := List.mem_filter.mp hp
        have hpl : poolLookup st.pool i = some p.2 := by
          have hpm : (i, p.2) ∈ st.pool := by
            have : p = (i, p.2) := by
              rw [← hfst]
            rw [← this]
            exact hpmem
          exact poolLookup_eq_of_mem_nodup st.pool hnd i p.2 hpm
        have hpe : p.2 = e := by
          rw [hpl] at he
          injection he
        rw [hpe] at hpred
        have : now - e.last_used > st.ttl_seconds := by simpa using hpred
        exact absurd this (Nat.not_lt.mpr hlive)
      rw [if_neg hnmem]
      exact he

/-- A state for the C1 witness: cleanup on, TTL 60, one entry idle for
100 seconds at sweep time and one idle for 5. -/
def wStale : PooledLogger :=
  { logger_id := 1, config := wcfg, created_at := 0, last_used := 0,
    message_count := 3 }

/-- The fresh entry of the C1 witness state. -/
def wFresh : PooledLogger :=
  { logger_id := 2, config := wcfg, created_at := 0, last_used := 95,
    message_count := 1 }

/-- Sweep witness state: TTL 60 with cleanup enabled. -/
def wSweepState : TelegramLogger :=
  { emptyState with
    ttl_seconds := 60
    enable_ttl_cleanup := true
    pool := [(1, wStale), (2, wFresh)] }

/-- The same pool with cleanup disabled. -/
def wSweepOff : TelegramLogger :=
  { wSweepState with enable_ttl_cleanup := false }

/-- C1 witness: at time 100 the entry idle for 100s is removed, the entry
idle for 5s survives, and with cleanup disabled the sweep changes
nothing. -/
theorem C1_witness :
    (wSweepState.pool.map Prod.fst).Nodup ∧
    wSweepState.enable_ttl_cleanup = true ∧
    poolLookup wSweepState.pool 1 = some wStale ∧
    100 - wStale.last_used > wSweepState.ttl_seconds ∧
    poolLookup (cleanup_worker_sweep wSweepState 100).pool 1 = none ∧
    poolLookup wSweepState.pool 2 = some wFresh ∧
    100 - wFresh.last_used ≤ wSweepState.ttl_seconds ∧
    poolLookup (cleanup_worker_sweep wSweepState 100).pool 2 = some wFresh ∧
    wSweepOff.enable_ttl_cleanup = false ∧
    cleanup_worker_sweep wSweepOff 100 = wSweepOff := by
  have hnd : (wSweepState.pool.map Prod.fst).Nodup := by decide
  have hndOff : (wSweepOff.pool.map Prod.fst).Nodup := by decide
  refine ⟨hnd, rfl, rfl, by decide, ?_, rfl, by decide, ?_, rfl, ?_⟩
  · exact ((C1_reaper_sweep wSweepState 100 hnd).2 rfl 1 wStale rfl).1 (by decide)
  · exact ((C1_reaper_sweep wSweepState 100 hnd).2 rfl 2 wFresh rfl).2 (by decide)
  · exact (C1_reaper_sweep wSweepOff 100 hndOff).1 rfl

/-- `poolLookup` through a `create_pooled_logger` insert. -/
theorem poolLookup_create (st : TelegramLogger) (newId now : Nat)
    (name : String) (d w i : Bool) (j : Nat) :
    poolLookup (create_pooled_logger st newId now name d w i).1.pool j =
      match poolLookup st.pool j with
      | some e => some e
      | none =>
        if newId = j then
          some { logger_id := newId
                 config := { service_name := name, debug_enabled := d,
                             warning_enabled := w, info_enabled := i,
                             error_enabled := true, critical_enabled := true }
                 created_at := now
                 last_used := now
                 message_count := 0 }
        else none := by
  rw [create_pool_eq, poolLookup_append]
  cases poolLookup st.pool j with
  | some e => rfl
  | none => simp [poolLookup_cons, poolLookup]

/-- The partial gate update never touches the error and critical gates. -/
theorem applyGateUpdates_errcrit (c : LoggerConfig) (d w i : Option Bool) :
    (applyGateUpdates c d w i).error_enabled = c.error_enabled ∧
    (applyGateUpdates c d w i).critical_enabled = c.critical_enabled := by
  unfold applyGateUpdates
  cases d <;> cases w <;> cases i <;> simp

/-- `setLevelAttr` on a level other than error/critical never touches the
error and critical gates. -/
theorem setLevelAttr_errcrit (c : LoggerConfig) (level : String) (b : Bool)
    (hne : level ≠ "error") (hnc : level ≠ "critical") :
    (c.setLevelAttr level b).error_enabled = c.error_enabled ∧
    (c.setLevelAttr level b).critical_enabled = c.critical_enabled := by
  by_cases h1 : level = "debug"
  · simp [LoggerConfig.setLevelAttr, h1]
  · by_cases h2 : level = "info"
    · simp [LoggerConfig.setLevelAttr, h2]
    · by_cases h3 : level = "warning"
      · simp [LoggerConfig.setLevelAttr, h3]
      · simp [LoggerConfig.setLevelAttr, beq_iff_eq, h1, h2, h3, hne, hnc]

/-- Invariant: every pooled configuration keeps the error and critical
gates on. -/
def ErrCritOK (st : TelegramLogger) : Prop :=
  ∀ i e, poolLookup st.pool i = some e →
    e.config.error_enabled = true ∧ e.config.critical_enabled = true

/-- Creation preserves the error/critical invariant (the new entry is
built with both forced true). -/
theorem errCritOK_create (st : TelegramLogger) (h : ErrCritOK st)
    (newId now : Nat) (name : String) (d w i : Bool) :
    ErrCritOK (create_pooled_logger st newId now name d w i).1 := by
  intro j e he
  rw [poolLookup_create] at he
  cases hc : poolLookup st.pool j with
  | some e0 =>
    rw [hc] at he
    have hee : e0 = e := Option.some.inj he
    rw [← hee]
    exact h j e0 hc
  | none =>
    rw [hc] at he
    by_cases hj : newId = j
    · have he' :
          (some { logger_id := newId
                  config := { service_name := name, debug_enabled := d,
                              warning_enabled := w, info_enabled := i,
                              error_enabled := true, critical_enabled := true }
                  created_at := now
                  last_used := now
                  message_count := 0 } : Option PooledLogger) = some e := by
        rw [← he]
        simp [hj]
      have hee := Option.some.inj he'
      rw [← hee]
      exact ⟨rfl, rfl⟩
    · have he' : (none : Option PooledLogger) = some e := by
        rw [← he]
        simp [hj]
      exact absurd he'.symm (by simp)

/-- Partial configuration update preserves the error/critical invariant. -/
theorem errCritOK_configure (st : TelegramLogger) (h : ErrCritOK st)
    (logger_id : Nat) (d w i : Option Bool) :
    ErrCritOK (configure_pool_logger st logger_id d w i).1 := by
  intro j e he
  unfold configure_pool_logger at he
  cases hc : poolLookup st.pool logger_id with
  | none =>
    rw [hc] at he
    exact h j e he
  | some entry =>
    rw [hc] at he
    have he' : poolLookup (poolUpdate st.pool logger_id
        (fun x => { x with config := applyGateUpdates entry.config d w i })) j =
        some e := he
    rw [poolLookup_update] at he'
    cases hcj : poolLookup st.pool j with
    | none =>
      rw [hcj] at he'
      exact absurd he' (by simp)
    | some e0 =>
      rw [hcj] at he'
      have hee : (if j = logger_id then
          { e0 with config := applyGateUpdates entry.config d w i } else e0) = e :=
        Option.some.inj he'
      by_cases hj : j = logger_id
      · rw [if_pos hj] at hee
        rw [← hee]
        have hb := h logger_id entry hc
        have hg := applyGateUpdates_errcrit entry.config d w i
        exact ⟨hg.1.trans hb.1, hg.2.trans hb.2⟩
      · rw [if_neg hj] at hee
        rw [← hee]
        exact h j e0 hcj

/-- `set_level` preserves the error/critical invariant (it rejects the
error and critical levels outright). -/
theorem errCritOK_setLevel (st : TelegramLogger) (h : ErrCritOK st)
    (logger_id : Nat) (level : String) (b : Bool) :
    ErrCritOK (set_level st logger_id level b) := by
  intro j e he
  unfold set_level at he
  by_cases hcond :
      (hasLevelAttr level && !(level == "error" || level == "critical")) = true
  · rw [if_pos hcond] at he
    have hner : level ≠ "error" := by
      intro hl
      rw [hl] at hcond
      simp [hasLevelAttr] at hcond
    have hncr : level ≠ "critical" := by
      intro hl
      rw [hl] at hcond
      simp [hasLevelAttr] at hcond
    have he' : poolLookup (poolUpdate st.pool logger_id
        (fun x => { x with config := x.config.setLevelAttr level b })) j =
        some e := he
    rw [poolLookup_update] at he'
    cases hcj : poolLookup st.pool j with
    | none =>
      rw [hcj] at he'
      exact absurd he' (by simp)
    | some e0 =>
      rw [hcj] at he'
      have hee : (if j = logger_id then
          { e0 with config := e0.config.setLevelAttr level b } else e0) = e :=
        Option.some.inj he'
      by_cases hj : j = logger_id
      · rw [if_pos hj] at hee
        rw [← hee]
        have hb := h j e0 hcj
        have hs := setLevelAttr_errcrit e0.config level b hner hncr
        exact ⟨hs.1.trans hb.1, hs.2.trans hb.2⟩
      · rw [if_neg hj] at hee
        rw [← hee]
        exact h j e0 hcj
  · rw [if_neg hcond] at he
    exact h j e he

/-- The configuration-shaping operations a caller can apply to the pool:
creation with arbitrary gate arguments, partial update, and per-level
toggle. -/
inductive RegOp where
  | create (newId now : Nat) (name : String) (debug warning info : Bool)
  | configure (logger_id : Nat) (debug warning info : Option Bool)
  | setLevel (logger_id : Nat) (level : String) (enabled : Bool)
deriving Repr

/-- Apply one configuration operation to the state. -/
def applyRegOp (st : TelegramLogger) (op : RegOp) : TelegramLogger :=
  match op with
  | .create newId now name d w i => (create_pooled_logger st newId now name d w i).1
  | .configure logger_id d w i => (configure_pool_logger st logger_id d w i).1
  | .setLevel logger_id level b => set_level st logger_id level b

/-- Apply a sequence of configuration operations. -/
def runRegOps (st : TelegramLogger) (ops : List RegOp) : TelegramLogger :=
  ops.foldl applyRegOp st

/-- The error/critical invariant is preserved by any operation sequence. -/
theorem errCritOK_runRegOps (st : TelegramLogger) (h : ErrCritOK st)
    (ops : List RegOp) : ErrCritOK (runRegOps st ops) := by
  induction ops generalizing st with
  | nil => exact h
  | cons op tl ih =>
    cases op with
    | create newId now name d w i =>
      exact ih _ (errCritOK_create st h newId now name d w i)
    | configure logger_id d w i =>
      exact ih _ (errCritOK_configure st h logger_id d w i)
    | setLevel logger_id level b =>
      exact ih _ (errCritOK_setLevel st h logger_id level b)

/-- C2: starting from any state whose pooled configurations have the
error and critical gates on (e.g. the empty pool), after any sequence of
creations, partial updates and per-level toggles — including attempts to
disable error or critical — every configuration read back still shows the
error and critical gates enabled. -/
theorem C2_error_critical_gates (st : TelegramLogger) (h : ErrCritOK st)
    (ops : List RegOp) (logger_id : Nat) (c : LoggerConfig)
    (hc : get_logger_config (runRegOps st ops) logger_id = some c) :
    c.error_enabled = true ∧ c.critical_enabled = true := by
  unfold get_logger_config at hc
  cases hl : poolLookup (runRegOps st ops).pool logger_id with
  | none =>
    rw [hl] at hc
    exact absurd hc (by simp)
  | some e =>
    rw [hl] at hc
    have hce : e.config = c := Option.some.inj hc
    rw [← hce]
    exact errCritOK_runRegOps st h ops logger_id e hl

/-- C2 witness operations: create with all gates requested on, then try
to switch error and critical off, then switch everything off via the
partial update. -/
def wOps : List RegOp :=
  [RegOp.create 5 0 "svc" true true true,
   RegOp.setLevel 5 "error" false,
   RegOp.setLevel 5 "critical" false,
   RegOp.configure 5 (some false) (some false) (some false)]

/-- C2 witness: after the hostile operation sequence the configuration
still reads error and critical enabled. -/
theorem C2_witness :
    ErrCritOK emptyState ∧
    get_logger_config (runRegOps emptyState wOps) 5 =
      some { service_name := "svc", debug_enabled := false,
             warning_enabled := false, info_enabled := false,
             error_enabled := true, critical_enabled := true } ∧
    (({ service_name := "svc", debug_enabled := false,
        warning_enabled := false, info_enabled := false,
        error_enabled := true,
        critical_enabled := true } : LoggerConfig).error_enabled = true ∧
     ({ service_name := "svc", debug_enabled := false,
        warning_enabled := false, info_enabled := false,
        error_enabled := true,
        critical_enabled := true } : LoggerConfig).critical_enabled = true) := by
  have hEmpty : ErrCritOK emptyState := by
    intro i e he
    simp [poolLookup, emptyState] at he
  exact ⟨hEmpty, rfl,
    C2_error_critical_gates emptyState hEmpty wOps 5 _ rfl⟩

/-- With distinct alias keys, membership determines the alias lookup. -/
theorem svcFind_eq_of_mem_nodup (m : List (String × Nat))
    (hnd : (m.map Prod.fst).Nodup) (label : String) (v : Nat)
    (hm : (label, v) ∈ m) :
    m.find? (fun p => p.1 == label) = some (label, v) := by
  induction m with
  | nil => simp at hm
  | cons hd tl ih =>
    obtain ⟨k, u⟩ := hd
    simp only [List.map_cons, List.nodup_cons] at hnd
    rcases List.mem_cons.mp hm with h1 | h2
    · injection h1 with hlk hvu
      subst hlk
      subst hvu
      rw [List.find?_cons_of_pos]
      simp
    · have hk : k ≠ label := by
        intro hkl
        subst hkl
        exact hnd.1 (List.mem_map_of_mem Prod.fst h2)
      rw [List.find?_cons_of_neg]
      · exact ih hnd.2 h2
      · simp [hk]

/-- C7: after a removal that reports success, an instance lookup and a
configuration lookup on the removed identity return nothing, the log
endpoint answers not-found, every service-label alias that pointed at the
identity is gone, and a later get-or-create on a label that pointed at it
takes the create path, returning the freshly drawn identity — distinct
from the removed one whenever the uuid draw is (alias keys are distinct,
as Python dict keys are). -/
theorem C7_remove_consequences (st : TelegramLogger) (logger_id : Nat)
    (hrm : (remove_logger st logger_id).2 = true)
    (hnd : (st.service_to_logger_id.map Prod.fst).Nodup) :
    (∀ now, get_logger (remove_logger st logger_id).1 logger_id now =
      ((remove_logger st logger_id).1, none)) ∧
    get_logger_config (remove_logger st logger_id).1 logger_id = none ∧
    (∀ (lvl : Option String) (msg : String)
        (md : Option (List (String × String))) (now : Nat), msg ≠ "" →
      validLevels.contains (lowerString (lvl.getD "info")) = true →
      api_log_message (remove_logger st logger_id).1 logger_id lvl msg md now =
        .notFound (remove_logger st logger_id).1) ∧
    (∀ label,
      (label, logger_id) ∉ (remove_logger st logger_id).1.service_to_logger_id) ∧
    (∀ (label : String) (freshId now : Nat),
      st.service_to_logger_id.find? (fun p => p.1 == label) =
        some (label, logger_id) →
      freshId ≠ logger_id →
      (get_service_logger (remove_logger st logger_id).1 label freshId now).2 =
          freshId ∧
      (get_service_logger (remove_logger st logger_id).1 label freshId now).2 ≠
          logger_id) := by
  have hgone : poolLookup (remove_logger st logger_id).1.pool logger_id = none := by
    rw [remove_logger_pool, poolLookup_erase]
    simp
  have hsvc : (remove_logger st logger_id).1.service_to_logger_id =
      st.service_to_logger_id.filter (fun p => p.2 != logger_id) := by
    unfold remove_logger
    cases hc : poolLookup st.pool logger_id with
    | some e => simp [hc]
    | none =>
      unfold remove_logger at hrm
      rw [hc] at hrm
      simp at hrm
  have hget : ∀ now, get_logger (remove_logger st logger_id).1 logger_id now =
      ((remove_logger st logger_id).1, none) := by
    intro now
    have hns :
        (poolLookup (remove_logger st logger_id).1.pool logger_id).isSome =
          false := by
      rw [hgone]; rfl
    simp [get_logger, hns, hgone]
  refine ⟨hget, ?_, ?_, ?_, ?_⟩
  · unfold get_logger_config
    rw [hgone]
    rfl
  · intro lvl msg md now hmsg hlvl
    have hlvl' : lowerString (lvl.getD "info") ∈ validLevels := by
      simpa using hlvl
    simp [api_log_message, hmsg, hlvl', hget now]
  · intro label hmem
    rw [hsvc] at hmem
    obtain ⟨-, hpred⟩ := List.mem_filter.mp hmem
    simp at hpred
  · intro label freshId now hf hne
    have hnone : ((remove_logger st logger_id).1.service_to_logger_id).find?
        (fun p => p.1 == label) = none := by
      rw [hsvc]
      refine (List.find?_eq_none).mpr ?_
      intro p hp hpl
      obtain ⟨hpm, hpv⟩ := List.mem_filter.mp hp
      have hpl' : p.1 = label := by simpa using hpl
      have hpm' : (label, p.2) ∈ st.service_to_logger_id := by
        have hpp : p = (label, p.2) := by
          rw [← hpl']
        rw [← hpp]
        exact hpm
      have hval := svcFind_eq_of_mem_nodup st.service_to_logger_id hnd label
        p.2 hpm'
      rw [hf] at hval
      have hv2 : logger_id = p.2 := by
        have hpair := Option.some.inj hval
        injection hpair
      rw [← hv2] at hpv
      simp at hpv
    have hres : (get_service_logger (remove_logger st logger_id).1 label
        freshId now).2 = freshId := by
      unfold get_service_logger
      rw [hnone]
      rfl
    exact ⟨hres, by rw [hres]; exact hne⟩

/-- C7 witness: removing the concrete identity 1 severs the `svc` alias,
all lookups and logs report not-found, and a later get-or-create on
`svc` returns the fresh identity 2. -/
theorem C7_witness :
    (remove_logger wstate 1).2 = true ∧
    (wstate.service_to_logger_id.map Prod.fst).Nodup ∧
    get_logger (remove_logger wstate 1).1 1 7 = ((remove_logger wstate 1).1, none) ∧
    get_logger_config (remove_logger wstate 1).1 1 = none ∧
    ("m" : String) ≠ "" ∧
    validLevels.contains (lowerString ((some "info" : Option String).getD "info")) =
      true ∧
    api_log_message (remove_logger wstate 1).1 1 (some "info") "m" none 7 =
      .notFound (remove_logger wstate 1).1 ∧
    ("svc", 1) ∉ (remove_logger wstate 1).1.service_to_logger_id ∧
    wstate.service_to_logger_id.find? (fun p => p.1 == "svc") = some ("svc", 1) ∧
    (2 : Nat) ≠ 1 ∧
    (get_service_logger (remove_logger wstate 1).1 "svc" 2 7).2 = 2 := by
  have hrm : (remove_logger wstate 1).2 = true := rfl
  have hnd : (wstate.service_to_logger_id.map Prod.fst).Nodup := by
    simp [wstate]
  obtain ⟨h1, h2, h3, h4, h5⟩ := C7_remove_consequences wstate 1 hrm hnd
  refine ⟨hrm, hnd, h1 7, h2, by decide, rfl, ?_, h4 "svc", rfl, by decide, ?_⟩
  · exact h3 (some "info") "m" none 7 (by decide) rfl
  · exact (h5 "svc" 2 7 rfl (by decide)).1
